import Mathlib

/-!
Verification of the DeepBayesTorch repository against its natural-language
specification.  The Python sources are shallowly embedded in Lean: NumPy
float arrays become lists of rationals (all the operations checked here are
exact field operations and comparisons), stateful loops become fuel-indexed
recursions, and fallible code returns Except values.
-/

namespace DeepBayes

/-! ## Embedding of src/attacks/detect_attacks_logp_v2.py -/

/-- comp_detect (src/attacks/detect_attacks_logp_v2.py, lines 108-118).
If plus is true a point v is detected when v > x_mean + alpha * x_std,
otherwise when v < x_mean - alpha * x_std; np.mean over the boolean array
is the detected count divided by the array length, and the function
returns that mean times 100. -/
def compDetect (x : List ℚ) (x_mean x_std alpha : ℚ) (plus : Bool) : ℚ :=
  let detected : ℕ :=
    if plus then x.countP (fun v => decide (x_mean + alpha * x_std < v))
    else x.countP (fun v => decide (v < x_mean - alpha * x_std))
  ((detected : ℚ) / (x.length : ℚ)) * 100

/-- Loop of search_alpha (src/attacks/detect_attacks_logp_v2.py, lines
129-136).  The Python loop runs while |detect_rate - target_rate| > 0.01
and T < 20; here fuel = 20 - T, the state is (alpha_min, alpha_max,
alpha_now, detect_rate), and the third component of the result counts the
iterations that were executed. -/
def searchAlphaGo (x : List ℚ) (x_mean x_std target_rate : ℚ) (plus : Bool) :
    ℕ → ℚ → ℚ → ℚ → ℚ → ℚ × ℚ × ℕ
  | 0, _, _, alpha_now, detect_rate => (alpha_now, detect_rate, 0)
  | fuel + 1, alpha_min, alpha_max, alpha_now, detect_rate =>
    if 1 / 100 < |detect_rate - target_rate| then
      let alpha_min' := if target_rate < detect_rate then alpha_now else alpha_min
      let alpha_max' := if target_rate < detect_rate then alpha_max else alpha_now
      let alpha_now' := (1 / 2) * (alpha_min' + alpha_max')
      let r := searchAlphaGo x x_mean x_std target_rate plus fuel
        alpha_min' alpha_max' alpha_now' (compDetect x x_mean x_std alpha_now' plus)
      (r.1, r.2.1, r.2.2 + 1)
    else (alpha_now, detect_rate, 0)

/-- search_alpha (src/attacks/detect_attacks_logp_v2.py, lines 120-137):
alpha_min = 0.0, alpha_max = 3.0, alpha_now = 1.5, then the bisection loop;
returns (alpha_now, detect_rate). -/
def searchAlpha (x : List ℚ) (x_mean x_std target_rate : ℚ) (plus : Bool) :
    ℚ × ℚ :=
  let r := searchAlphaGo x x_mean x_std target_rate plus 20 0 3 (3 / 2)
    (compDetect x x_mean x_std (3 / 2) plus)
  (r.1, r.2.1)

/-- Number of iterations the while loop of search_alpha executes. -/
def searchAlphaSteps (x : List ℚ) (x_mean x_std target_rate : ℚ)
    (plus : Bool) : ℕ :=
  (searchAlphaGo x x_mean x_std target_rate plus 20 0 3 (3 / 2)
    (compDetect x x_mean x_std (3 / 2) plus)).2.2

lemma searchAlphaGo_steps_le (x : List ℚ) (x_mean x_std target_rate : ℚ)
    (plus : Bool) :
    ∀ (fuel : ℕ) (amin amax anow rate : ℚ),
      (searchAlphaGo x x_mean x_std target_rate plus fuel amin amax anow
        rate).2.2 ≤ fuel := by
  intro fuel
  induction fuel with
  | zero => intro amin amax anow rate; exact Nat.le_refl 0
  | succ n ih =>
    intro amin amax anow rate
    rw [searchAlphaGo]
    by_cases h : 1 / 100 < |rate - target_rate|
    · rw [if_pos h]
      exact Nat.succ_le_succ (ih _ _ _ _)
    · rw [if_neg h]
      exact Nat.zero_le _

lemma searchAlphaGo_rate_eq (x : List ℚ) (x_mean x_std target_rate : ℚ)
    (plus : Bool) :
    ∀ (fuel : ℕ) (amin amax anow rate : ℚ),
      rate = compDetect x x_mean x_std anow plus →
      (searchAlphaGo x x_mean x_std target_rate plus fuel amin amax anow
        rate).2.1 =
      compDetect x x_mean x_std
        (searchAlphaGo x x_mean x_std target_rate plus fuel amin amax anow
          rate).1 plus := by
  intro fuel
  induction fuel with
  | zero => intro amin amax anow rate hr; exact hr
  | succ n ih =>
    intro amin amax anow rate hr
    rw [searchAlphaGo]
    by_cases h : 1 / 100 < |rate - target_rate|
    · rw [if_pos h]
      exact ih _ _ _ _ rfl
    · rw [if_neg h]
      exact hr

lemma searchAlphaGo_mem_Icc (x : List ℚ) (x_mean x_std target_rate : ℚ)
    (plus : Bool) :
    ∀ (fuel : ℕ) (amin amax anow rate : ℚ),
      0 ≤ amin → amin ≤ anow → anow ≤ amax → amax ≤ 3 →
      0 ≤ (searchAlphaGo x x_mean x_std target_rate plus fuel amin amax anow
        rate).1 ∧
      (searchAlphaGo x x_mean x_std target_rate plus fuel amin amax anow
        rate).1 ≤ 3 := by
  intro fuel
  induction fuel with
  | zero =>
    intro amin amax anow rate h0 h1 h2 h3
    exact ⟨le_trans h0 h1, le_trans h2 h3⟩
  | succ n ih =>
    intro amin amax anow rate h0 h1 h2 h3
    rw [searchAlphaGo]
    by_cases h : 1 / 100 < |rate - target_rate|
    · rw [if_pos h]
      by_cases hgt : target_rate < rate
      · simp only [if_pos hgt]
        exact ih _ _ _ _ (le_trans h0 h1) (by linarith) (by linarith) h3
      · simp only [if_neg hgt]
        exact ih _ _ _ _ h0 (by linarith) (by linarith) (le_trans h2 h3)
    · rw [if_neg h]
      exact ⟨le_trans h0 h1, le_trans h2 h3⟩

/-- C3: for every input array x, scalars x_mean and x_std, target_rate and
flag plus, search_alpha terminates: it performs at most 20 refinement
iterations of the binary search, and the returned pair satisfies
detect_rate = comp_detect(x, x_mean, x_std, alpha_now, plus) for the
returned alpha_now. -/
theorem searchAlpha_terminates_and_consistent (x : List ℚ)
    (x_mean x_std target_rate : ℚ) (plus : Bool) :
    searchAlphaSteps x x_mean x_std target_rate plus ≤ 20 ∧
      (searchAlpha x x_mean x_std target_rate plus).2 =
        compDetect x x_mean x_std
          (searchAlpha x x_mean x_std target_rate plus).1 plus := by
  constructor
  · exact searchAlphaGo_steps_le x x_mean x_std target_rate plus 20 0 3 (3 / 2) _
  · exact searchAlphaGo_rate_eq x x_mean x_std target_rate plus 20 0 3 (3 / 2) _ rfl

/-- C5: throughout every execution of search_alpha the invariant
0 <= alpha_min <= alpha_now <= alpha_max <= 3 holds at every loop iteration
(lemma searchAlphaGo_mem_Icc), so the alpha value returned is always in the
closed interval [0, 3]. -/
theorem searchAlpha_alpha_in_Icc (x : List ℚ) (x_mean x_std target_rate : ℚ)
    (plus : Bool) :
    (searchAlpha x x_mean x_std target_rate plus).1 ∈ Set.Icc (0 : ℚ) 3 := by
  have h := searchAlphaGo_mem_Icc x x_mean x_std target_rate plus 20 0 3 (3 / 2)
    (compDetect x x_mean x_std (3 / 2) plus)
    (le_refl 0) (by norm_num) (by norm_num) (le_refl 3)
  exact Set.mem_Icc.mpr ⟨h.1, h.2⟩

/-- C4: for every dataset x, statistics x_mean and x_std with x_std >= 0,
and for both values of plus, comp_detect(x, x_mean, x_std, alpha, plus) is
non-increasing as alpha increases, and its value lies in [0, 100] (it is
100 times the fraction of detected points). -/
theorem compDetect_antitone_and_bounded (x : List ℚ)
    (x_mean x_std alpha alpha' : ℚ) (plus : Bool)
    (hstd : 0 ≤ x_std) (hx : x ≠ []) (ha : alpha ≤ alpha') :
    compDetect x x_mean x_std alpha' plus ≤ compDetect x x_mean x_std alpha plus ∧
      0 ≤ compDetect x x_mean x_std alpha plus ∧
      compDetect x x_mean x_std alpha plus ≤ 100 := by
  have hL : (0 : ℚ) < (x.length : ℚ) := by
    exact_mod_cast List.length_pos.mpr hx
  have hmul : alpha * x_std ≤ alpha' * x_std := mul_le_mul_of_nonneg_right ha hstd
  cases plus with
  | false =>
    refine ⟨?_, ?_, ?_⟩
    · have hc : x.countP (fun v => decide (v < x_mean - alpha' * x_std)) ≤
          x.countP (fun v => decide (v < x_mean - alpha * x_std)) := by
        refine List.countP_mono_left ?_
        intro v _ hv
        simp only [decide_eq_true_eq] at hv ⊢
        linarith
      show ((x.countP (fun v => decide (v < x_mean - alpha' * x_std)) : ℚ) /
            (x.length : ℚ)) * 100 ≤
          ((x.countP (fun v => decide (v < x_mean - alpha * x_std)) : ℚ) /
            (x.length : ℚ)) * 100
      gcongr
    · show 0 ≤ ((x.countP (fun v => decide (v < x_mean - alpha * x_std)) : ℚ) /
          (x.length : ℚ)) * 100
      positivity
    · have hc : x.countP (fun v => decide (v < x_mean - alpha * x_std)) ≤
          x.length := List.countP_le_length _
      show ((x.countP (fun v => decide (v < x_mean - alpha * x_std)) : ℚ) /
            (x.length : ℚ)) * 100 ≤ 100
      calc ((x.countP (fun v => decide (v < x_mean - alpha * x_std)) : ℚ) /
            (x.length : ℚ)) * 100
          ≤ ((x.length : ℚ) / (x.length : ℚ)) * 100 := by
            gcongr
        _ = 100 := by rw [div_self (ne_of_gt hL), one_mul]
  | true =>
    refine ⟨?_, ?_, ?_⟩
    · have hc : x.countP (fun v => decide (x_mean + alpha' * x_std < v)) ≤
          x.countP (fun v => decide (x_mean + alpha * x_std < v)) := by
        refine List.countP_mono_left ?_
        intro v _ hv
        simp only [decide_eq_true_eq] at hv ⊢
        linarith
      show ((x.countP (fun v => decide (x_mean + alpha' * x_std < v)) : ℚ) /
            (x.length : ℚ)) * 100 ≤
          ((x.countP (fun v => decide (x_mean + alpha * x_std < v)) : ℚ) /
            (x.length : ℚ)) * 100
      gcongr
    · show 0 ≤ ((x.countP (fun v => decide (x_mean + alpha * x_std < v)) : ℚ) /
          (x.length : ℚ)) * 100
      positivity
    · have hc : x.countP (fun v => decide (x_mean + alpha * x_std < v)) ≤
          x.length := List.countP_le_length _
      show ((x.countP (fun v => decide (x_mean + alpha * x_std < v)) : ℚ) /
            (x.length : ℚ)) * 100 ≤ 100
      calc ((x.countP (fun v => decide (x_mean + alpha * x_std < v)) : ℚ) /
            (x.length : ℚ)) * 100
          ≤ ((x.length : ℚ) / (x.length : ℚ)) * 100 := by
            gcongr
        _ = 100 := by rw [div_self (ne_of_gt hL), one_mul]

/-- Witness for compDetect_antitone_and_bounded at x = [0, 1], x_mean = 0,
x_std = 1, alpha = 1, alpha' = 2, plus = true. -/
theorem compDetect_antitone_and_bounded_witness :
    compDetect [0, 1] 0 1 2 true ≤ compDetect [0, 1] 0 1 1 true ∧
      0 ≤ compDetect [0, 1] 0 1 1 true ∧ compDetect [0, 1] 0 1 1 true ≤ 100 :=
  compDetect_antitone_and_bounded [0, 1] 0 1 1 2 true (by norm_num)
    (List.cons_ne_nil _ _) (by norm_num)

/-! ## Embedding of src/attack_black_box.py -/

/-- vae_types (src/attack_black_box.py, line 120), also the seven variants
accepted by load_model. -/
def vaeTypes : List String := ["A", "B", "C", "D", "E", "F", "G"]

/-- attack_methods (src/attack_black_box.py, line 122). -/
def attackMethods : List String := ["SimBA", "Gaussian", "Sticker"]

/-- Names bound at the top level of the module attack_black_box.py: those
its imports bind (lines 1-14) and its own defs (load_model,
perform_attacks, plot_results).  A name used inside perform_attacks that is
not in this list and not a local variable raises NameError at run time. -/
def attackBlackBoxTopLevelNames : List String :=
  ["argparse", "json", "os", "warnings", "plt", "np", "torch", "cm", "tqdm",
   "bayes_classifier", "construct_optimizer", "gaussian_perturbation_attack",
   "sticker_attack", "load_data", "load_model", "load_params",
   "perform_attacks", "plot_results"]

/-- Global name each attack branch of perform_attacks calls to build the
adversarial images (src/attack_black_box.py, lines 205-224); none for an
unsupported attack, where the code raises ValueError. -/
def blackBoxAttackCallee (attack : String) : Option String :=
  if attack = "Sticker" then some "sticker_attack"
  else if attack = "SimBA" then some "simba"
  else if attack = "Gaussian" then some "gaussian_perturbation_attack"
  else none

/-- Configuration assembled by load_model (src/attack_black_box.py, lines
32-87): which generator and encoder modules are imported and the
architecture constants.  Fields: generatorModule, encoderModule,
inputShape, nChannel, dimZ, dimH, dimY. -/
structure ModelConfig where
  generatorModule : String
  encoderModule : String
  inputShape : ℕ × ℕ × ℕ
  nChannel : ℕ
  dimZ : ℕ
  dimH : ℕ
  dimY : ℕ
deriving Repr, DecidableEq

/-- Generator module chosen in the mnist branch of load_model
(src/attack_black_box.py, lines 33-48). -/
def mnistGeneratorModule (vae_type : String) : Except String String :=
  if vae_type = "A" then .ok "models.conv_generator_mnist_A"
  else if vae_type = "B" then .ok "models.conv_generator_mnist_B"
  else if vae_type = "C" then .ok "models.conv_generator_mnist_C"
  else if vae_type = "D" then .ok "models.conv_generator_mnist_D"
  else if vae_type = "E" then .ok "models.conv_generator_mnist_E"
  else if vae_type = "F" then .ok "models.conv_generator_mnist_F"
  else if vae_type = "G" then .ok "models.conv_generator_mnist_G"
  else .error ("Unknown VAE type: " ++ vae_type)

/-- Generator module chosen in the cifar10/gtsrb branch of load_model
(src/attack_black_box.py, lines 57-72). -/
def cifar10GeneratorModule (vae_type : String) : Except String String :=
  if vae_type = "A" then .ok "models.conv_generator_cifar10_A"
  else if vae_type = "B" then .ok "models.conv_generator_cifar10_B"
  else if vae_type = "C" then .ok "models.conv_generator_cifar10_C"
  else if vae_type = "D" then .ok "models.conv_generator_cifar10_D"
  else if vae_type = "E" then .ok "models.conv_generator_cifar10_E"
  else if vae_type = "F" then .ok "models.conv_generator_cifar10_F"
  else if vae_type = "G" then .ok "models.conv_generator_cifar10_G"
  else .error ("Unknown VAE type: " ++ vae_type)

/-- load_model (src/attack_black_box.py, lines 17-99) up to and including the
choice of modules and architecture constants; raising ValueError becomes an
error value.  After the mnist branch dimY = 10, after the cifar10/gtsrb
branch dimY = 10, then dimY = 43 when data_name is gtsrb (lines 83-84). -/
def loadModel (data_name vae_type : String) : Except String ModelConfig :=
  if data_name = "mnist" then
    match mnistGeneratorModule vae_type with
    | .error e => .error e
    | .ok g =>
      .ok ⟨g, "models.conv_encoder_mnist", (1, 28, 28), 64, 64, 500,
        if data_name = "gtsrb" then 43 else 10⟩
  else if data_name = "cifar10" ∨ data_name = "gtsrb" then
    match cifar10GeneratorModule vae_type with
    | .error e => .error e
    | .ok g =>
      .ok ⟨g, "models.conv_encoder_cifar10", (3, 32, 32), 128, 128, 1000,
        if data_name = "gtsrb" then 43 else 10⟩
  else .error ("Unknown dataset: " ++ data_name)

/-- Index of the first maximal entry, scanning with a running best;
torch.argmax over the class axis for one row of scores. -/
def argmaxFrom (best : ℚ) (bestIdx i : ℕ) : List ℚ → ℕ
  | [] => bestIdx
  | v :: vs =>
    if best < v then argmaxFrom v i (i + 1) vs
    else argmaxFrom best bestIdx (i + 1) vs

/-- torch.argmax(scores, dim=1) for one row. -/
def argmaxIdx : List ℚ → ℕ
  | [] => 0
  | v :: vs => argmaxFrom v 0 1 vs

/-- Number of samples of one batch whose predicted class
torch.argmax(y_pred, dim=1) equals the true label
(src/attack_black_box.py, line 236). -/
def batchCorrect {α : Type} (classify : α → List ℚ) (batch : List (α × ℕ)) : ℕ :=
  batch.countP (fun s => decide (argmaxIdx (classify s.1) = s.2))

/-- Accumulation of correct and total over the batches of the data loader
(src/attack_black_box.py, lines 195-237): correct starts at 0 and gains the
matches of each batch, total gains each batch length. -/
def evalCounts {α : Type} (classify : α → List ℚ)
    (loader : List (List (α × ℕ))) : ℕ × ℕ :=
  loader.foldl
    (fun ct batch => (ct.1 + batchCorrect classify batch, ct.2 + batch.length))
    (0, 0)

/-- Batches of size batch_size, in order and without shuffling, as
torch.utils.data.DataLoader(test_dataset, batch_size, shuffle=False) yields
them; the recursion is indexed by a fuel argument. -/
def batchesAux {α : Type} (batch_size : ℕ) : ℕ → List α → List (List α)
  | 0, _ => []
  | _ + 1, [] => []
  | fuel + 1, v :: vs =>
    ((v :: vs).take batch_size) ::
      batchesAux batch_size fuel ((v :: vs).drop batch_size)

/-- Batches of the whole list: the fuel l.length suffices when
batch_size is positive. -/
def batches {α : Type} (batch_size : ℕ) (l : List α) : List (List α) :=
  batchesAux batch_size l.length l

/-- Filesystem-visible effects of perform_attacks, in program order. -/
inductive FsEvent where
  | warnDirExists : FsEvent
  | makedirs : FsEvent
  | loadCheckpoint : String → FsEvent
  | writeJson : String → FsEvent
deriving Repr, DecidableEq

/-- perform_attacks (src/attack_black_box.py, lines 103-249), parameterized
over the Bayes classifier of each variant (models vae_type maps an image to
its dimY class scores) and over the attack implementations (attackFn attack
epsilon image).  Returned are the filesystem events in program order and
either an error (the assert on line 117, or DataLoader refusing
batch_size = 0) or the accuracies dictionary: for each variant and attack,
one value correct/total per parameter index i, with sticker_sizes[i] for
the Sticker attack and epsilons[i] otherwise. -/
def performAttacks {α : Type} (models : String → α → List ℚ)
    (attackFn : String → ℚ → α → α) (data_name : String) (dirExists : Bool)
    (sticker_sizes epsilons : List ℚ) (batch_size : ℕ)
    (dataset : List (α × ℕ)) :
    List FsEvent × Except String (List (String × List (String × List ℚ))) :=
  if sticker_sizes.length ≠ epsilons.length then
    ([], .error "AssertionError: Length of sticker_sizes and epsilons must be the same.")
  else
    let ev := (if dirExists then [FsEvent.warnDirExists] else []) ++
      [FsEvent.makedirs]
    if batch_size = 0 then
      (ev, .error "ValueError: batch_size should be a positive integer value")
    else
      let loader := batches batch_size (dataset.take 10)
      let results := vaeTypes.map (fun vae_type =>
        (vae_type, attackMethods.map (fun attack =>
          (attack, (List.range sticker_sizes.length).map (fun i =>
            let epsilon := if attack = "Sticker" then sticker_sizes.getD i 0
              else epsilons.getD i 0
            let ct := evalCounts
              (fun im => models vae_type (attackFn attack epsilon im)) loader
            (ct.1 : ℚ) / (ct.2 : ℚ))))))
      (ev ++ vaeTypes.map FsEvent.loadCheckpoint ++
        [FsEvent.writeJson (data_name ++ "_accuracy_vs_sticker_size.json")],
        .ok results)

lemma evalCounts_foldl {α : Type} (classify : α → List ℚ) :
    ∀ (loader : List (List (α × ℕ))) (init : ℕ × ℕ),
      loader.foldl
        (fun ct batch =>
          (ct.1 + batchCorrect classify batch, ct.2 + batch.length)) init =
      (init.1 + (loader.map (batchCorrect classify)).sum,
        init.2 + (loader.map List.length).sum) := by
  intro loader
  induction loader with
  | nil => intro init; simp
  | cons b bs ih =>
    intro init
    simp [List.foldl_cons, ih, Nat.add_assoc]

lemma evalCounts_eq {α : Type} (classify : α → List ℚ)
    (loader : List (List (α × ℕ))) :
    evalCounts classify loader =
      ((loader.map (batchCorrect classify)).sum,
        (loader.map List.length).sum) := by
  simpa [evalCounts] using evalCounts_foldl classify loader (0, 0)

lemma batchesAux_flatten {α : Type} (batch_size : ℕ) (hbs : 0 < batch_size) :
    ∀ (fuel : ℕ) (l : List α), l.length ≤ fuel →
      (batchesAux batch_size fuel l).flatten = l := by
  intro fuel
  induction fuel with
  | zero =>
    intro l hl
    have : l = [] := List.length_eq_zero.mp (Nat.le_zero.mp hl)
    subst this
    rfl
  | succ n ih =>
    intro l hl
    cases l with
    | nil => rfl
    | cons v vs =>
      rw [batchesAux, List.flatten_cons, ih ((v :: vs).drop batch_size) ?_,
        List.take_append_drop]
      have : ((v :: vs).drop batch_size).length =
          (v :: vs).length - batch_size := List.length_drop _ _
      simp only [List.length_cons] at hl this
      omega

lemma batches_flatten {α : Type} (batch_size : ℕ) (hbs : 0 < batch_size)
    (l : List α) : (batches batch_size l).flatten = l :=
  batchesAux_flatten batch_size hbs l.length l (Nat.le_refl _)

/-- C8: perform_attacks evaluates accuracy only on the first 10 examples of
the test set (the Subset of indices 0 through 9, built before the data
loader), so the denominator total of each reported accuracy is at most 10
regardless of batch_size or the dataset's true size. -/
theorem perform_attacks_total_le_ten {α : Type} (classify : α → List ℚ)
    (batch_size : ℕ) (dataset : List (α × ℕ)) (hbs : 0 < batch_size) :
    (evalCounts classify (batches batch_size (dataset.take 10))).2 ≤ 10 := by
  rw [evalCounts_eq]
  have h1 : ((batches batch_size (dataset.take 10)).map List.length).sum =
      (batches batch_size (dataset.take 10)).flatten.length :=
    (List.length_flatten _).symm
  simp only [h1, batches_flatten batch_size hbs]
  exact List.length_take_le 10 dataset

/-- Witness for perform_attacks_total_le_ten: a 25-example dataset read in
batches of 3 still contributes a total of at most 10. -/
theorem perform_attacks_total_le_ten_witness :
    (evalCounts (fun _ => ([] : List ℚ))
      (batches 3 ((List.replicate 25 (((), 0) : Unit × ℕ)).take 10))).2 ≤ 10 :=
  perform_attacks_total_le_ten (fun _ => ([] : List ℚ)) 3
    (List.replicate 25 (((), 0) : Unit × ℕ)) (by decide)

/-- C6: a sample counts as correctly classified exactly when the argmax
over the class axis of the scores returned by the Bayes classifier equals
its true label, and the reported accuracy correct/total lies in [0, 1]. -/
theorem accuracy_is_argmax_fraction {α : Type} (classify : α → List ℚ)
    (loader : List (List (α × ℕ)))
    (htotal : 0 < (evalCounts classify loader).2) :
    (evalCounts classify loader).1 =
      loader.flatten.countP (fun s => decide (argmaxIdx (classify s.1) = s.2)) ∧
      0 ≤ ((evalCounts classify loader).1 : ℚ) /
        ((evalCounts classify loader).2 : ℚ) ∧
      ((evalCounts classify loader).1 : ℚ) /
        ((evalCounts classify loader).2 : ℚ) ≤ 1 := by
  have hct : (evalCounts classify loader).1 ≤ (evalCounts classify loader).2 := by
    rw [evalCounts_eq]
    exact List.sum_le_sum fun b _ => List.countP_le_length _
  refine ⟨?_, ?_, ?_⟩
  · rw [evalCounts_eq, List.countP_flatten]
    rfl
  · positivity
  · rw [div_le_one (by exact_mod_cast htotal)]
    exact_mod_cast hct

/-- Witness for accuracy_is_argmax_fraction: a two-sample loader where the
constant scores [1, 0] classify the first sample (label 0) correctly and
the second (label 1) incorrectly. -/
theorem accuracy_is_argmax_fraction_witness :
    (evalCounts (fun _ => [(1 : ℚ), 0]) [[(0, 0)], [(1, 1)]]).1 =
      ([[((0 : ℕ), (0 : ℕ))], [(1, 1)]].flatten.countP
        (fun s => decide (argmaxIdx ((fun _ => [(1 : ℚ), 0]) s.1) = s.2))) ∧
      0 ≤ ((evalCounts (fun _ => [(1 : ℚ), 0]) [[(0, 0)], [(1, 1)]]).1 : ℚ) /
        ((evalCounts (fun _ => [(1 : ℚ), 0]) [[(0, 0)], [(1, 1)]]).2 : ℚ) ∧
      ((evalCounts (fun _ => [(1 : ℚ), 0]) [[(0, 0)], [(1, 1)]]).1 : ℚ) /
        ((evalCounts (fun _ => [(1 : ℚ), 0]) [[(0, 0)], [(1, 1)]]).2 : ℚ) ≤ 1 :=
  accuracy_is_argmax_fraction (fun _ => [(1 : ℚ), 0]) [[(0, 0)], [(1, 1)]]
    (by decide)

/-- C9: with sticker_sizes and epsilons of different lengths,
perform_attacks stops at its first statement, the assert, before any
warning, directory creation, model loading or results file: the event
trace is empty and the result is the AssertionError. -/
theorem perform_attacks_assert_first {α : Type} (models : String → α → List ℚ)
    (attackFn : String → ℚ → α → α) (data_name : String) (dirExists : Bool)
    (sticker_sizes epsilons : List ℚ) (batch_size : ℕ)
    (dataset : List (α × ℕ))
    (hlen : sticker_sizes.length ≠ epsilons.length) :
    performAttacks models attackFn data_name dirExists sticker_sizes epsilons
      batch_size dataset =
      ([], .error "AssertionError: Length of sticker_sizes and epsilons must be the same.") := by
  rw [performAttacks, if_pos hlen]

/-- Witness for perform_attacks_assert_first at sticker_sizes = [0],
epsilons = []. -/
theorem perform_attacks_assert_first_witness :
    performAttacks (fun _ (_ : Unit) => ([] : List ℚ)) (fun _ _ a => a)
      "mnist" false [0] [] 100 ([] : List (Unit × ℕ)) =
      ([], .error "AssertionError: Length of sticker_sizes and epsilons must be the same.") :=
  perform_attacks_assert_first (fun _ (_ : Unit) => ([] : List ℚ))
    (fun _ _ a => a) "mnist" false [0] [] 100 ([] : List (Unit × ℕ))
    (by decide)

/-- C1 (code evaluated at the failing point): perform_attacks tries the
attacks [SimBA, Gaussian, Sticker]; the Gaussian and Sticker branches call
module-level names that attack_black_box.py does import, but the SimBA
branch calls the name simba, which is bound nowhere at the top level of the
module, so the SimBA branch raises NameError instead of running the
attack. -/
theorem simba_callee_unbound :
    "SimBA" ∈ attackMethods ∧
      blackBoxAttackCallee "SimBA" = some "simba" ∧
      "simba" ∉ attackBlackBoxTopLevelNames ∧
      blackBoxAttackCallee "Gaussian" = some "gaussian_perturbation_attack" ∧
      "gaussian_perturbation_attack" ∈ attackBlackBoxTopLevelNames ∧
      blackBoxAttackCallee "Sticker" = some "sticker_attack" ∧
      "sticker_attack" ∈ attackBlackBoxTopLevelNames := by
  decide

/-- C7: load_model raises ValueError naming the unknown VAE type for every
vae_type outside A-G on every supported dataset, raises ValueError naming
the unknown dataset for every data_name outside mnist/cifar10/gtsrb, and
takes no error branch for the seven variants on a supported dataset. -/
theorem loadModel_error_handling :
    (∀ data_name vae_type : String,
        data_name ∈ ["mnist", "cifar10", "gtsrb"] → vae_type ∉ vaeTypes →
        loadModel data_name vae_type =
          .error ("Unknown VAE type: " ++ vae_type)) ∧
      (∀ data_name vae_type : String,
        data_name ∉ ["mnist", "cifar10", "gtsrb"] →
        loadModel data_name vae_type =
          .error ("Unknown dataset: " ++ data_name)) ∧
      (∀ data_name vae_type : String,
        data_name ∈ ["mnist", "cifar10", "gtsrb"] → vae_type ∈ vaeTypes →
        ∃ cfg, loadModel data_name vae_type = .ok cfg) := by
  refine ⟨?_, ?_, ?_⟩
  · intro data_name vae_type hd hv
    simp only [vaeTypes, List.mem_cons, List.not_mem_nil, or_false] at hv
    push_neg at hv
    obtain ⟨h1, h2, h3, h4, h5, h6, h7⟩ := hv
    simp only [List.mem_cons, List.not_mem_nil, or_false] at hd
    rcases hd with rfl | rfl | rfl <;>
      simp [loadModel, mnistGeneratorModule, cifar10GeneratorModule,
        h1, h2, h3, h4, h5, h6, h7]
  · intro data_name vae_type hd
    simp only [List.mem_cons, List.not_mem_nil, or_false] at hd
    push_neg at hd
    obtain ⟨h1, h2, h3⟩ := hd
    simp [loadModel, h1, h2, h3]
  · intro data_name vae_type hd hv
    simp only [vaeTypes, List.mem_cons, List.not_mem_nil, or_false] at hd hv
    rcases hd with rfl | rfl | rfl <;>
        rcases hv with rfl | rfl | rfl | rfl | rfl | rfl | rfl <;>
      exact ⟨_, rfl⟩

/-- Witness for loadModel_error_handling: variant H on mnist is rejected as
an unknown VAE type, dataset svhn is rejected as unknown, and variant G on
gtsrb loads. -/
theorem loadModel_error_handling_witness :
    loadModel "mnist" "H" = .error "Unknown VAE type: H" ∧
      loadModel "svhn" "A" = .error "Unknown dataset: svhn" ∧
      ∃ cfg, loadModel "gtsrb" "G" = .ok cfg :=
  ⟨loadModel_error_handling.1 "mnist" "H" (by decide) (by decide),
    loadModel_error_handling.2.1 "svhn" "A" (by decide),
    loadModel_error_handling.2.2 "gtsrb" "G" (by decide) (by decide)⟩

/-! ## Embedding of comp_logp (src/attacks/detect_attacks_logp_v2.py) -/

/-- np.mean of a one-dimensional array. -/
def listMean (v : List ℚ) : ℚ := v.sum / (v.length : ℚ)

/-- np.var of a one-dimensional array (population variance, ddof = 0). -/
def listVar (v : List ℚ) : ℚ :=
  ((v.map (fun a => (a - listMean v) ^ 2)).sum) / (v.length : ℚ)

/-- Log-sum-exp of one row of logits, in terms of the exp and log
primitives, which are abstract parameters here.  The source line 24 calls
np.logsumexp(logit, axis=1); NumPy has no attribute logsumexp (the function
the comment on line 23 intends is scipy.special.logsumexp), so the name
lookup itself fails at run time; this definition gives the call its
intended mathematical meaning log(sum(exp(row))). -/
def logsumexpRow (exp log : ℚ → ℚ) (row : List ℚ) : ℚ :=
  log ((row.map exp).sum)

/-- Row-wise sum of the elementwise product, np.sum(y * logit, axis=1)
(src/attacks/detect_attacks_logp_v2.py, line 28). -/
def rowDotSums (y logit : List (List ℚ)) : List ℚ :=
  List.zipWith (fun yr lr => (List.zipWith (fun a b => a * b) yr lr).sum) y logit

/-- Row indices j with y[j][i] = 1, that is np.where(y[:, i] == 1)[0]
(src/attacks/detect_attacks_logp_v2.py, line 33). -/
def classRows (y : List (List ℚ)) (i : ℕ) : List ℕ :=
  (List.range y.length).filter (fun j => decide ((y.getD j []).getD i 0 = 1))

/-- comp_logp (src/attacks/detect_attacks_logp_v2.py, lines 10-45, the
comp_logit_dist = False path), with the transcendental NumPy primitives
exp, log and sqrt as abstract parameters.  Returns the six results in the
order the source appends them: [logpx, logpx_mean, logpx_std, logpxy,
logpxy_mean, logpxy_std]; a per-class entry is none where the source
appends float nan because the class has no samples. -/
def compLogp (exp log sqrt : ℚ → ℚ) (logit y : List (List ℚ)) :
    List ℚ × ℚ × ℚ × List ℚ × List (Option ℚ) × List (Option ℚ) :=
  let logpx := logit.map (logsumexpRow exp log)
  let logpx_mean := listMean logpx
  let logpx_std := sqrt (listVar logpx)
  let logpxy := rowDotSums y logit
  let nb_classes := (y.getD 0 []).length
  let logpxy_mean := (List.range nb_classes).map (fun i =>
    if classRows y i ≠ [] then
      some (listMean ((classRows y i).map (fun j => logpxy.getD j 0)))
    else none)
  let logpxy_std := (List.range nb_classes).map (fun i =>
    if classRows y i ≠ [] then
      some (sqrt (listVar ((classRows y i).map (fun j => logpxy.getD j 0))))
    else none)
  (logpx, logpx_mean, logpx_std, logpxy, logpxy_mean, logpxy_std)

/-- C2 (the computation the code intends at the failing call): the first
component of the returned list is the row-wise log-sum-exp of the logits
and the fourth is the row-wise sum of y * logit, whatever the exp, log and
sqrt primitives are. -/
theorem compLogp_logpx_and_logpxy (exp log sqrt : ℚ → ℚ)
    (logit y : List (List ℚ)) :
    (compLogp exp log sqrt logit y).1 =
      logit.map (fun row => log ((row.map exp).sum)) ∧
      (compLogp exp log sqrt logit y).2.2.2.1 =
        List.zipWith (fun yr lr =>
          (List.zipWith (fun a b => a * b) yr lr).sum) y logit :=
  ⟨rfl, rfl⟩

/-! ## Embedding of src/models/conv_generator_cifar10_G.py -/

/-- Modelled from the spec: MLPLayer (models/mlp.py is not among the staged
sources; the spec calls every model file a thin layer definition delegating
to the framework's tensor operations).  A fully connected layer with one
row of weights and one bias per output unit and a relu or linear
activation applied componentwise. -/
structure MLPLayer where
  W : List (List ℚ)
  b : List ℚ
  activation : String
deriving Repr

/-- Activation by name: relu clamps below at 0, linear is the identity. -/
def mlpAct (activation : String) (v : ℚ) : ℚ :=
  if activation = "relu" then max v 0 else v

/-- Forward pass of one MLP layer on one input row. -/
def MLPLayer.run (L : MLPLayer) (input : List ℚ) : List ℚ :=
  List.zipWith
    (fun row bias =>
      mlpAct L.activation ((List.zipWith (fun w v => w * v) row input).sum + bias))
    L.W L.b

/-- Shape discipline of a layer from din to dout units: dout weight rows of
length din and dout biases. -/
def MLPLayer.hasShape (L : MLPLayer) (din dout : ℕ) : Prop :=
  L.W.length = dout ∧ L.b.length = dout ∧ ∀ row ∈ L.W, row.length = din

instance (L : MLPLayer) (din dout : ℕ) : Decidable (L.hasShape din dout) := by
  unfold MLPLayer.hasShape; infer_instance

/-- Layer stack of p(z|y) as Generator.__init__ builds it for variant G on
cifar10 (src/models/conv_generator_cifar10_G.py, lines 22-31):
fc_layers_pzy = [dimY, dimH, dimZ * 2], a relu layer dimY -> dimH followed
by a linear layer dimH -> dimZ * 2. -/
def pzyLayersShape (layers : List MLPLayer) (dimY dimH dimZ : ℕ) : Prop :=
  ∃ l0 l1, layers = [l0, l1] ∧
    l0.hasShape dimY dimH ∧ l0.activation = "relu" ∧
    l1.hasShape dimH (dimZ * 2) ∧ l1.activation = "linear"

/-- torch.chunk(out, 2, dim=1) applied to one row: two chunks, the first of
size ceil(n/2). -/
def chunk2 (v : List ℚ) : List ℚ × List ℚ :=
  (v.take ((v.length + 1) / 2), v.drop ((v.length + 1) / 2))

/-- Generator.pzy_params (src/models/conv_generator_cifar10_G.py, lines
72-77): feed the batch y through the pzy layers, then split the output into
(mu, log_sig) along dimension 1. -/
def pzy_params (layers : List MLPLayer) (y : List (List ℚ)) :
    List (List ℚ) × List (List ℚ) :=
  let out := y.map (fun row => layers.foldl (fun o L => L.run o) row)
  (out.map (fun r => (chunk2 r).1), out.map (fun r => (chunk2 r).2))

lemma MLPLayer.run_length (L : MLPLayer) (din dout : ℕ)
    (h : L.hasShape din dout) (input : List ℚ) :
    (L.run input).length = dout := by
  simp [MLPLayer.run, List.length_zipWith, h.1, h.2.1]

/-- C10: for every batch y of shape (N, dimY), pzy_params of the cifar10
variant-G generator returns a pair (mu, log_sig) of shape (N, dimZ) each:
the final p(z|y) layer has width 2 * dimZ and torch.chunk splits its output
into two equal halves along dimension 1. -/
theorem pzy_params_shapes (layers : List MLPLayer) (dimY dimH dimZ : ℕ)
    (y : List (List ℚ)) (hl : pzyLayersShape layers dimY dimH dimZ)
    (hy : ∀ row ∈ y, row.length = dimY) :
    (pzy_params layers y).1.length = y.length ∧
      (pzy_params layers y).2.length = y.length ∧
      (∀ r ∈ (pzy_params layers y).1, r.length = dimZ) ∧
      (∀ r ∈ (pzy_params layers y).2, r.length = dimZ) := by
  obtain ⟨l0, l1, rfl, h0, ha0, h1, ha1⟩ := hl
  refine ⟨by simp [pzy_params], by simp [pzy_params], ?_, ?_⟩
  · intro r hr
    simp only [pzy_params, List.mem_map] at hr
    obtain ⟨mid, hmid, rfl⟩ := hr
    obtain ⟨row, hrow, rfl⟩ := hmid
    have hlen : ((List.foldl (fun o L => MLPLayer.run L o) row [l0, l1])).length
        = dimZ * 2 := by
      simp only [List.foldl_cons, List.foldl_nil]
      exact MLPLayer.run_length l1 dimH (dimZ * 2) h1 _
    simp only [chunk2, List.length_take, hlen]
    omega
  · intro r hr
    simp only [pzy_params, List.mem_map] at hr
    obtain ⟨mid, hmid, rfl⟩ := hr
    obtain ⟨row, hrow, rfl⟩ := hmid
    have hlen : ((List.foldl (fun o L => MLPLayer.run L o) row [l0, l1])).length
        = dimZ * 2 := by
      simp only [List.foldl_cons, List.foldl_nil]
      exact MLPLayer.run_length l1 dimH (dimZ * 2) h1 _
    simp only [chunk2, List.length_drop, hlen]
    omega

/-- Witness for pzy_params_shapes: a generator with dimY = dimH = dimZ = 1
(final layer width 2) on a one-row batch yields mu and log_sig of one entry
each. -/
theorem pzy_params_shapes_witness :
    (pzy_params [⟨[[1]], [0], "relu"⟩, ⟨[[1], [2]], [0, 0], "linear"⟩]
      [[1]]).1.length = 1 ∧
      (pzy_params [⟨[[1]], [0], "relu"⟩, ⟨[[1], [2]], [0, 0], "linear"⟩]
        [[1]]).2.length = 1 ∧
      (∀ r ∈ (pzy_params [⟨[[1]], [0], "relu"⟩,
        ⟨[[1], [2]], [0, 0], "linear"⟩] [[1]]).1, r.length = 1) ∧
      (∀ r ∈ (pzy_params [⟨[[1]], [0], "relu"⟩,
        ⟨[[1], [2]], [0, 0], "linear"⟩] [[1]]).2, r.length = 1) :=
  pzy_params_shapes [⟨[[1]], [0], "relu"⟩, ⟨[[1], [2]], [0, 0], "linear"⟩]
    1 1 1 [[1]]
    ⟨⟨[[1]], [0], "relu"⟩, ⟨[[1], [2]], [0, 0], "linear"⟩, rfl,
      by decide, rfl, by decide, rfl⟩
    (by decide)

end DeepBayes
